import Mathlib

/-!
Verification of the webhook-driven voice pipeline in src/app/api/bot/route.ts
(lingua-tutor). The file shallowly embeds the route module: each TypeScript
function becomes a Lean function over an explicit environment `Env` that
models the five external collaborators (Telegram file metadata, file
download, speech-to-text, text generation, speech synthesis) plus the two
Telegram delivery endpoints. Every collaborator call made by the code is
recorded, in order, in a `Trace`; thrown JavaScript exceptions are modelled
as `Except.error` / `Option.some` outcomes threaded to the single top-level
catch of `POST`.
-/

namespace LinguaTutor

/-! ### Data model: the inbound webhook payload

The JSON update body: optional `message` with optional `chat.id` and
optional `voice.file_id` (route.ts lines 158-166). Absent / null JSON
fields are `Option.none`.
-/

/-- The `voice` object of a Telegram message; `file_id` may be absent
(the code reads `message.voice.file_id` unguarded; an absent field reads
as the JS value undefined). -/
structure Voice where
  file_id : Option String
deriving DecidableEq, Repr

/-- The `chat` object; `id` is the integer chat identity. -/
structure Chat where
  id : Int
deriving DecidableEq, Repr

/-- The `message` object: `chat` and `voice` may each be absent. -/
structure Message where
  chat : Option Chat
  voice : Option Voice
deriving DecidableEq, Repr

/-- The parsed webhook update body (`body` in `POST`). -/
structure InboundEvent where
  message : Option Message
deriving DecidableEq, Repr

/-- JS string interpolation of a possibly-undefined string value:
an absent value prints as "undefined" inside a template literal. -/
def jsStr (x : Option String) : String :=
  match x with
  | some s => s
  | none => "undefined"

/-! ### Collaborator response shapes (route.ts lines 22-145) -/

/-- The `result` object of Telegram getFile: `file_path` may be absent. -/
structure GetFileResult where
  file_path : Option String
deriving DecidableEq, Repr

/-- Response of the Telegram getFile metadata capability:
`{ok: boolean, result?: {file_path}, description?: string}`. -/
structure TgFileResponse where
  ok : Bool
  result : Option GetFileResult
  description : Option String
deriving DecidableEq, Repr

/-- Transport-level response of the binary file download:
`ok` is the 2xx success flag, `statusText` the HTTP status text,
`bytes` the body when successful. Audio bytes are modelled as `List Nat`. -/
structure DownloadResp where
  ok : Bool
  statusText : String
  bytes : List Nat
deriving DecidableEq, Repr

/-- One element of `completion.choices`: `message` and its `content`
may each be absent (the code reads `choices[0]?.message?.content`). -/
structure ChoiceMessage where
  content : Option String
deriving DecidableEq, Repr

/-- A candidate completion returned by the text-generation capability. -/
structure Choice where
  message : Option ChoiceMessage
deriving DecidableEq, Repr

/-- Behaviour of one invocation of the TTS stream for a given text:
`chunks` are the data events delivered in arrival order; afterwards the
stream either ends normally (`streamError = none`, the promise resolves)
or raises (`streamError = some e`, the promise rejects with `e`). -/
structure TtsStream where
  chunks : List (List Nat)
  streamError : Option String
deriving DecidableEq, Repr

/-- Response of the Telegram sendVoice endpoint: `ok` is the 2xx flag and
`errorBody` the serialized structured error body read on failure. -/
structure SendVoiceResp where
  ok : Bool
  errorBody : String
deriving DecidableEq, Repr

/-- The mocked external world: one field per black-box capability the
route calls. `sendMessage` returns whether the underlying fetch resolves
(the code never inspects that response's status, route.ts lines 139-145),
`true` meaning the text was delivered to the chat. `ttsSetupError` models
a rejection of `tts.setMetadata` (before any chunk is produced). -/
structure Env where
  getFile : String → TgFileResponse
  download : String → DownloadResp
  transcribe : List Nat → Except String String
  chatCompletion : String → String → Except String (List Choice)
  ttsSetupError : Option String
  tts : String → TtsStream
  sendVoice : Int → List Nat → SendVoiceResp
  sendMessage : Int → String → Bool

/-- One recorded outbound collaborator call. Send calls also record
whether they succeeded (`true` = delivered). -/
inductive Call where
  | getFile (fileId : String)
  | download (filePath : String)
  | transcribe (audio : List Nat)
  | generate (systemPrompt : String) (userMessage : String)
  | synthesize (text : String)
  | sendVoice (chatId : Int) (payload : List Nat) (delivered : Bool)
  | sendMessage (chatId : Int) (text : String) (delivered : Bool)
deriving DecidableEq, Repr

/-- The ordered list of outbound collaborator calls one invocation makes. -/
abbrev Trace := List Call

/-! ### Fixed strings of the module (route.ts lines 14, 17, 84, 183, 210) -/

/-- The fixed persona instruction sent as the system turn. -/
def TUTOR_SYSTEM_PROMPT : String :=
  "You are a friendly English tutor. Keep answers concise. Correct any major grammar mistakes gently. If the user speaks in another language, respond in English and encourage them to practice English."

/-- The fixed TTS voice identifier. -/
def TTS_VOICE : String := "en-US-AndrewNeural"

/-- The fixed fallback apology substituted when generation yields no content. -/
def tutorFallback : String := "I apologize, I could not generate a response."

/-- The fixed notice sent when the transcript is empty or whitespace-only. -/
def noticeText : String :=
  "I couldn't understand the audio. Please try speaking more clearly."

/-- The generic apology sent by the top-level catch handler. -/
def apologyText : String :=
  "Sorry, I encountered an error processing your message. Please try again."

/-! ### The route's functions (route.ts lines 22-145)

Each returns the trace of collaborator calls it performs paired with its
result; a thrown exception is `Except.error` carrying the error message.
-/

/-- route.ts lines 22-31: fetch getFile metadata; throw if `!data.ok`
with a message embedding `data.description`; otherwise return
`data.result.file_path` (reading `file_path` of an absent `result`
throws a TypeError; an absent `file_path` reads as undefined, which the
download URL interpolation renders as "undefined"). -/
def getTelegramFilePath (env : Env) (fileId : String) : Trace × Except String String :=
  let data := env.getFile fileId
  ([Call.getFile fileId],
    if data.ok then
      match data.result with
      | some r => Except.ok (jsStr r.file_path)
      | none => Except.error "TypeError: Cannot read properties of undefined (reading fileable path)"
    else
      Except.error ("Failed to get file path: " ++ jsStr data.description))

/-- route.ts lines 36-45: binary fetch of the resolved path; throw if the
response is not successful, embedding `response.statusText`. -/
def downloadTelegramFile (env : Env) (filePath : String) : Trace × Except String (List Nat) :=
  let resp := env.download filePath
  ([Call.download filePath],
    if resp.ok then Except.ok resp.bytes
    else Except.error ("Failed to download file: " ++ resp.statusText))

/-- route.ts lines 50-62: submit the audio bytes to the speech-to-text
capability (named ogg file payload, fixed model, language "en") and
return `transcription.text`; a capability throw propagates. -/
def transcribeAudio (env : Env) (audioBuffer : List Nat) : Trace × Except String String :=
  ([Call.transcribe audioBuffer], env.transcribe audioBuffer)

/-- Whether a character is whitespace for JS String.prototype.trim
(ASCII whitespace; the exotic Unicode space code points are outside the
model). -/
def jsWhitespace (c : Char) : Bool :=
  c == ' ' || c == '\t' || c == '\n' || c == '\r' || c == '\x0b' || c == '\x0c'

/-- JS String.prototype.trim on the underlying character list: drop
leading and trailing whitespace. -/
def jsTrimList (l : List Char) : List Char :=
  ((l.dropWhile jsWhitespace).reverse.dropWhile jsWhitespace).reverse

/-- JS String.prototype.trim. -/
def jsTrim (s : String) : String := ⟨jsTrimList s.data⟩

/-- JS `x || dflt` on a possibly-absent string: an absent value and the
empty string are falsy and yield `dflt`. -/
def jsOrElse (x : Option String) (dflt : String) : String :=
  match x with
  | some s => if s = "" then dflt else s
  | none => dflt

/-- route.ts lines 67-85: invoke the text-generation capability with the
fixed system prompt and the user turn (fixed model, max_tokens 500,
temperature 0.7) and return
`completion.choices[0]?.message?.content || tutorFallback`. -/
def getTutorResponse (env : Env) (userMessage : String) : Trace × Except String String :=
  ([Call.generate TUTOR_SYSTEM_PROMPT userMessage],
    match env.chatCompletion TUTOR_SYSTEM_PROMPT userMessage with
    | Except.error e => Except.error e
    | Except.ok choices =>
        Except.ok (jsOrElse ((choices.head?.bind Choice.message).bind ChoiceMessage.content) tutorFallback))

/-- route.ts lines 91-112: set TTS metadata (a rejection there propagates
before any streaming starts), then drain the synthesis stream: every data
chunk is pushed in arrival order; on end resolve with the concatenation;
on a stream error reject with it, the accumulated chunks discarded. -/
def generateSpeech (env : Env) (text : String) : Trace × Except String (List Nat) :=
  match env.ttsSetupError with
  | some e => ([], Except.error e)
  | none =>
    let s := env.tts text
    ([Call.synthesize text],
      match s.streamError with
      | some e => Except.error e
      | none => Except.ok s.chunks.flatten)

/-- route.ts lines 117-134: multipart upload of the voice payload keyed by
chat id; throw if the platform responds non-2xx, embedding the platform's
structured error body. -/
def sendVoiceToTelegram (env : Env) (chatId : Int) (audioBuffer : List Nat) : Trace × Except String Unit :=
  let resp := env.sendVoice chatId audioBuffer
  ([Call.sendVoice chatId audioBuffer resp.ok],
    if resp.ok then Except.ok ()
    else Except.error ("Failed to send voice: " ++ resp.errorBody))

/-- route.ts lines 139-145: JSON POST of a text message; the response
status is never inspected, so the only throw is a fetch rejection
(modelled by `env.sendMessage _ _ = false`, meaning nothing delivered). -/
def sendMessageToTelegram (env : Env) (chatId : Int) (text : String) : Trace × Except String Unit :=
  let okFetch := env.sendMessage chatId text
  ([Call.sendMessage chatId text okFetch],
    if okFetch then Except.ok () else Except.error "TypeError: fetch failed")

/-! ### The POST handler (route.ts lines 150-219) -/

/-- The HTTP response produced by `POST`: status plus the JSON body
`{ok, error?}`. -/
structure HttpResponse where
  status : Nat
  ok : Bool
  error : Option String
deriving DecidableEq, Repr

/-- NextResponse.json({ ok: true }) - status 200. -/
def okResponse : HttpResponse := ⟨200, true, none⟩

/-- NextResponse.json({ ok: false, error: "Internal server error" }, 500). -/
def errResponse : HttpResponse := ⟨500, false, some "Internal server error"⟩

/-- route.ts lines 150-199, the body of the top-level try. Returns the
calls made and `none` when it runs to a `return NextResponse.json({ok:
true})`, or `some e` when a statement throws `e` (caught by `POST`).
The voice check (lines 158-163) short-circuits; `message.chat.id` (line
165) throws when `chat` is absent; then the five stages run in order,
with the empty-transcript notice cut-off at lines 182-185. -/
def tryBody (env : Env) (body : InboundEvent) : Trace × Option String :=
  match body.message with
  | none => ([], none)
  | some message =>
  match message.voice with
  | none => ([], none)
  | some voice =>
  match message.chat with
  | none => ([], some "TypeError: Cannot read properties of undefined (reading id)")
  | some chat =>
    let chatId := chat.id
    let fileId := jsStr voice.file_id
    let s1 := getTelegramFilePath env fileId
    match s1.2 with
    | Except.error e => (s1.1, some e)
    | Except.ok filePath =>
    let s2 := downloadTelegramFile env filePath
    match s2.2 with
    | Except.error e => (s1.1 ++ s2.1, some e)
    | Except.ok audioBuffer =>
    let s3 := transcribeAudio env audioBuffer
    match s3.2 with
    | Except.error e => (s1.1 ++ s2.1 ++ s3.1, some e)
    | Except.ok transcribedText =>
    -- line 182: `!transcribedText || transcribedText.trim() === ''`; the
    -- empty string is falsy and trims to itself, so one check suffices
    if jsTrim transcribedText = "" then
      let s4 := sendMessageToTelegram env chatId noticeText
      match s4.2 with
      | Except.error e => (s1.1 ++ s2.1 ++ s3.1 ++ s4.1, some e)
      | Except.ok _ => (s1.1 ++ s2.1 ++ s3.1 ++ s4.1, none)
    else
      let s4 := getTutorResponse env transcribedText
      match s4.2 with
      | Except.error e => (s1.1 ++ s2.1 ++ s3.1 ++ s4.1, some e)
      | Except.ok tutorResponse =>
      let s5 := generateSpeech env tutorResponse
      match s5.2 with
      | Except.error e => (s1.1 ++ s2.1 ++ s3.1 ++ s4.1 ++ s5.1, some e)
      | Except.ok speechBuffer =>
      let s6 := sendVoiceToTelegram env chatId speechBuffer
      match s6.2 with
      | Except.error e => (s1.1 ++ s2.1 ++ s3.1 ++ s4.1 ++ s5.1 ++ s6.1, some e)
      | Except.ok _ => (s1.1 ++ s2.1 ++ s3.1 ++ s4.1 ++ s5.1 ++ s6.1, none)

/-- route.ts lines 204-215, the catch handler's best-effort notification.
The try's first statement (line 152, `await request.json()`) disturbs the
request body on every path that can reach the catch, so the re-parse
`request.clone()` at line 206 throws a TypeError (WHATWG fetch: cloning a
request whose body is disturbed throws) before any fetch is issued; the
inner empty catch swallows it. The notification block is therefore dead
code: it performs no collaborator call, and the fallback always fails to
construct with this thrown error. -/
def catchNotify : Trace × Except String Unit :=
  ([], Except.error "TypeError: Request body is already used")

/-- route.ts lines 150-219: run the try body; on normal completion answer
200 `{ok: true}`; on a throw run the catch (whose notification attempt
dies at `request.clone()` and is swallowed) and answer 500 `{ok: false,
error: "Internal server error"}`. `request` is the result of parsing the
request body as JSON; a parse failure throws inside the try as well. -/
def POST (env : Env) (request : Except String InboundEvent) : Trace × HttpResponse :=
  match request with
  | Except.error _ => (catchNotify.1, errResponse)
  | Except.ok body =>
    match tryBody env body with
    | (t, none) => (t, okResponse)
    | (t, some _) => (t ++ catchNotify.1, errResponse)

/-- route.ts lines 222-224: GET liveness endpoint, a static payload. -/
def GET : String := "LinguaTutor Bot webhook is active"

/-! ### Observations over traces -/

/-- Whether a call is an attempt on the sendVoice endpoint. -/
def Call.isVoiceAttempt : Call → Bool
  | Call.sendVoice _ _ _ => true
  | _ => false

/-- Whether a call is a successfully delivered voice message. -/
def Call.isVoiceDelivery : Call → Bool
  | Call.sendVoice _ _ ok => ok
  | _ => false

/-- Whether a call is an attempt on the sendMessage (text) endpoint. -/
def Call.isTextAttempt : Call → Bool
  | Call.sendMessage _ _ _ => true
  | _ => false

/-- Whether a call is a successfully delivered text message. -/
def Call.isTextDelivery : Call → Bool
  | Call.sendMessage _ _ ok => ok
  | _ => false

/-- Number of sendVoice attempts in a trace. -/
def voiceAttempts (t : Trace) : Nat := t.countP (fun c => c.isVoiceAttempt)

/-- Number of voice messages actually delivered in a trace. -/
def voiceDeliveries (t : Trace) : Nat := t.countP (fun c => c.isVoiceDelivery)

/-- Number of sendMessage attempts in a trace. -/
def textAttempts (t : Trace) : Nat := t.countP (fun c => c.isTextAttempt)

/-- Number of text messages actually delivered in a trace. -/
def textDeliveries (t : Trace) : Nat := t.countP (fun c => c.isTextDelivery)

/-- The ingress filter as the code implements it (route.ts lines 158-159):
the event carries a `message` with a non-null `voice`. -/
def isActionableVoice (e : InboundEvent) : Bool :=
  match e.message with
  | none => false
  | some m => m.voice.isSome

/-- Modelled from the spec (section 4.1 wording, not the code): actionable
iff a `message` carries a non-null `voice` whose file identifier is
present and non-empty. Used to compare the spec's filter with the code's. -/
def specActionableVoice (e : InboundEvent) : Bool :=
  match e.message with
  | none => false
  | some m =>
    match m.voice with
    | none => false
    | some v =>
      match v.file_id with
      | none => false
      | some s => s ≠ ""

/-! ### Concrete environments and events used to instantiate the theorems -/

/-- A fully successful environment: metadata resolves to "voice/abc.oga",
the download returns 9 bytes, transcription returns "hello", generation
returns a single completion, synthesis streams two chunks then ends, and
both Telegram sends succeed. -/
def env0 : Env :=
  ⟨fun _ => ⟨true, some ⟨some "voice/abc.oga"⟩, none⟩,
   fun _ => ⟨true, "OK", [10, 20, 30, 40, 50, 60, 70, 80, 90]⟩,
   fun _ => Except.ok "hello",
   fun _ _ => Except.ok [⟨some ⟨some "Hi! How can I help you practice English?"⟩⟩],
   none,
   fun _ => ⟨[[1, 2], [3]], none⟩,
   fun _ _ => ⟨true, ""⟩,
   fun _ _ => true⟩

/-- env0 with a generation capability returning zero completions. -/
def envNoChoice : Env :=
  ⟨env0.getFile, env0.download, env0.transcribe, fun _ _ => Except.ok [],
   env0.ttsSetupError, env0.tts, env0.sendVoice, env0.sendMessage⟩

/-- env0 with a transcription capability returning whitespace only. -/
def envBlankTranscript : Env :=
  ⟨env0.getFile, env0.download, fun _ => Except.ok "   ", env0.chatCompletion,
   env0.ttsSetupError, env0.tts, env0.sendVoice, env0.sendMessage⟩

/-- env0 with a synthesis stream that raises mid-stream after one chunk. -/
def envTtsFail : Env :=
  ⟨env0.getFile, env0.download, env0.transcribe, env0.chatCompletion,
   env0.ttsSetupError, fun _ => ⟨[[1, 2]], some "stream reset"⟩,
   env0.sendVoice, env0.sendMessage⟩

/-- env0 with a metadata capability reporting failure with a description. -/
def envMetaFail : Env :=
  ⟨fun _ => ⟨false, none, some "file not found"⟩, env0.download, env0.transcribe,
   env0.chatCompletion, env0.ttsSetupError, env0.tts, env0.sendVoice, env0.sendMessage⟩

/-- An event with no message field at all. -/
def evNoMessage : InboundEvent := ⟨none⟩

/-- A text-only event: message present, no voice field. -/
def evTextOnly : InboundEvent := ⟨some ⟨some ⟨7⟩, none⟩⟩

/-- A well-formed voice event for chat 5 with file identifier "abc123". -/
def evVoice : InboundEvent := ⟨some ⟨some ⟨5⟩, some ⟨some "abc123"⟩⟩⟩

/-- A voice event whose file identifier is the empty string. -/
def evEmptyFileId : InboundEvent := ⟨some ⟨some ⟨5⟩, some ⟨some ""⟩⟩⟩

/-- A voice event whose message has no chat field. -/
def evNoChat : InboundEvent := ⟨some ⟨none, some ⟨some "abc123"⟩⟩⟩

/-! ### Shared structural lemmas -/

/-- Interpolating a present string value yields the value itself. -/
lemma jsStr_some (s : String) : jsStr (some s) = s := rfl

/-- Interpolating an absent value yields "undefined". -/
lemma jsStr_none : jsStr none = "undefined" := rfl

/-- A non-actionable event makes the try body return immediately with no
calls and no thrown error. -/
lemma tryBody_skip (env : Env) (e : InboundEvent) (h : isActionableVoice e = false) :
    tryBody env e = ([], none) := by
  obtain ⟨msg⟩ := e
  cases msg with
  | none => rfl
  | some m =>
    cases hv : m.voice with
    | none => simp [tryBody, hv]
    | some v => simp [isActionableVoice, hv] at h

/-- POST answers the bare acknowledgement with an empty trace exactly when
the try body completed with no calls and no thrown error. -/
lemma post_eq_skip_iff (env : Env) (e : InboundEvent) :
    POST env (Except.ok e) = ([], okResponse) ↔ tryBody env e = ([], none) := by
  constructor
  · intro h
    rcases ht : tryBody env e with ⟨t, o⟩
    cases o with
    | none =>
      simp only [POST, ht] at h
      rw [Prod.mk.injEq] at h
      rw [h.1]
    | some err =>
      simp only [POST, ht] at h
      rw [Prod.mk.injEq] at h
      exact absurd h.2 (by decide)
  · intro h
    simp [POST, h]

/-- Once the voice check passes and the chat id is extracted, the metadata
fetch is the first recorded call, so the trace is nonempty. -/
lemma tryBody_trace_ne_nil (env : Env) (m : Message) (c : Chat) (v : Voice)
    (hc : m.chat = some c) (hv : m.voice = some v) :
    (tryBody env (⟨some m⟩ : InboundEvent)).1 ≠ [] := by
  simp only [tryBody, hv, hc]
  repeat' split
  all_goals simp [getTelegramFilePath]

/-- An actionable event never yields the bare skip result. -/
lemma tryBody_ne_skip (env : Env) (e : InboundEvent) (h : isActionableVoice e = true) :
    tryBody env e ≠ ([], none) := by
  obtain ⟨msg⟩ := e
  cases msg with
  | none => simp [isActionableVoice] at h
  | some m =>
    cases hv : m.voice with
    | none => simp [isActionableVoice, hv] at h
    | some v =>
      cases hc : m.chat with
      | none =>
        simp [tryBody, hv, hc]
      | some c =>
        intro hcontra
        exact tryBody_trace_ne_nil env m c v hc hv (by rw [hcontra])

/-! ### Claims -/

/-- C1: the spec says the handler is actionable iff the event carries a
message with a non-null voice field with a NON-EMPTY file identifier.
The code (route.ts line 159) never inspects the file identifier: an event
whose voice has an empty file_id is not spec-actionable yet the pipeline
proceeds (the handler does not return the bare acknowledgement; it calls
the metadata capability with the empty identifier). -/
theorem C1_counterexample :
    specActionableVoice evEmptyFileId = false ∧
    POST env0 (Except.ok evEmptyFileId) ≠ ([], okResponse) := by
  refine ⟨rfl, ?_⟩
  decide

/-- C1 (amended): the POST handler treats an inbound event as an
actionable voice message if and only if the event carries a message field
containing a non-null voice field; the file identifier is not examined.
For every event failing this condition the handler short-circuits (no
collaborator calls, immediate 200 acknowledgement), and for every event
satisfying it the pipeline proceeds. -/
theorem C1_filter_iff (env : Env) (e : InboundEvent) :
    isActionableVoice e = true ↔ POST env (Except.ok e) ≠ ([], okResponse) := by
  constructor
  · intro h hcontra
    exact tryBody_ne_skip env e h ((post_eq_skip_iff env e).mp hcontra)
  · intro h
    by_contra hfalse
    exact h ((post_eq_skip_iff env e).mpr
      (tryBody_skip env e (Bool.not_eq_true _ ▸ hfalse)))

/-- C1 witness: for the well-formed voice event the handler proceeds. -/
theorem C1_filter_iff_witness :
    POST env0 (Except.ok evVoice) ≠ ([], okResponse) :=
  (C1_filter_iff env0 evVoice).mp (by decide)

/-- C2: an event lacking a voice field (or a message field) produces zero
outbound collaborator calls and the 200 acknowledgement. -/
theorem C2_nonvoice_skip (env : Env) (e : InboundEvent)
    (h : isActionableVoice e = false) :
    POST env (Except.ok e) = ([], okResponse) :=
  (post_eq_skip_iff env e).mpr (tryBody_skip env e h)

/-- C2 witness: a message-less event and a text-only event are both
acknowledged with an empty trace. -/
theorem C2_nonvoice_skip_witness :
    POST env0 (Except.ok evNoMessage) = ([], okResponse) ∧
    POST env0 (Except.ok evTextOnly) = ([], okResponse) :=
  ⟨C2_nonvoice_skip env0 evNoMessage (by decide),
   C2_nonvoice_skip env0 evTextOnly (by decide)⟩

/-- C5: when the generation capability returns zero completions, or a
first completion with absent or empty content, getTutorResponse returns
the fixed fallback apology; and whatever the capability returns, a
successful result is never the empty string. -/
theorem C5_fallback_nonempty (env : Env) (userMessage : String) (choices : List Choice)
    (hok : env.chatCompletion TUTOR_SYSTEM_PROMPT userMessage = Except.ok choices)
    (hno : (choices.head?.bind Choice.message).bind ChoiceMessage.content = none
         ∨ (choices.head?.bind Choice.message).bind ChoiceMessage.content = some "") :
    (getTutorResponse env userMessage).2 = Except.ok tutorFallback
    ∧ ∀ r, (getTutorResponse env userMessage).2 = Except.ok r → r ≠ "" := by
  constructor
  · rcases hno with h | h <;> simp [getTutorResponse, hok, h, jsOrElse]
  · intro r hr
    simp only [getTutorResponse, hok] at hr
    rw [Except.ok.injEq] at hr
    subst hr
    cases hx : (choices.head?.bind Choice.message).bind ChoiceMessage.content with
    | none => simp [jsOrElse, tutorFallback]
    | some s =>
      by_cases hs : s = "" <;> simp [jsOrElse, hs, tutorFallback]

/-- C5 witness: with zero completions the reply is the fallback apology,
a nonempty string. -/
theorem C5_fallback_nonempty_witness :
    (getTutorResponse envNoChoice "hello").2 = Except.ok tutorFallback :=
  (C5_fallback_nonempty envNoChoice "hello" [] rfl (Or.inl rfl)).1

/-- C10: a message carrying a voice field but no chat field throws at the
unguarded chat-id extraction before any collaborator call; the top-level
catch cannot re-extract a chat id, so no notification is attempted and
the response is the 500 internal-server-error payload. -/
theorem C10_missing_chat (env : Env) (m : Message) (v : Voice)
    (hv : m.voice = some v) (hc : m.chat = none) :
    POST env (Except.ok (⟨some m⟩ : InboundEvent)) = ([], errResponse) := by
  have ht : tryBody env (⟨some m⟩ : InboundEvent)
      = ([], some "TypeError: Cannot read properties of undefined (reading id)") := by
    simp [tryBody, hv, hc]
  simp [POST, ht, catchNotify]

/-- C10 witness: the concrete no-chat voice event yields the 500 response
with an empty trace even in the all-successful environment. -/
theorem C10_missing_chat_witness :
    POST env0 (Except.ok evNoChat) = ([], errResponse) :=
  C10_missing_chat env0 ⟨none, some ⟨some "abc123"⟩⟩ ⟨some "abc123"⟩ rfl rfl

/-- C4: when the transcription result trims to the empty string, the
generation, synthesis and voice-delivery capabilities are never invoked:
the trace holds exactly the metadata fetch, the download, the
transcription and one delivered could-not-understand notice, and the
response is the 200 acknowledgement. -/
theorem C4_blank_transcript (env : Env) (m : Message) (c : Chat) (v : Voice)
    (p st : String) (d : Option String) (b : List Nat) (s : String)
    (hc : m.chat = some c) (hv : m.voice = some v)
    (hmeta : env.getFile (jsStr v.file_id) = ⟨true, some ⟨some p⟩, d⟩)
    (hdl : env.download p = ⟨true, st, b⟩)
    (htr : env.transcribe b = Except.ok s)
    (hblank : jsTrim s = "")
    (hsend : env.sendMessage c.id noticeText = true) :
    POST env (Except.ok (⟨some m⟩ : InboundEvent)) =
      ([Call.getFile (jsStr v.file_id), Call.download p, Call.transcribe b,
        Call.sendMessage c.id noticeText true], okResponse) := by
  have ht : tryBody env (⟨some m⟩ : InboundEvent) =
      ([Call.getFile (jsStr v.file_id), Call.download p, Call.transcribe b,
        Call.sendMessage c.id noticeText true], none) := by
    simp [tryBody, hv, hc, getTelegramFilePath, hmeta, jsStr_some,
      downloadTelegramFile, hdl, transcribeAudio, htr, hblank,
      sendMessageToTelegram, hsend]
  simp [POST, ht]

/-- C4 witness: the blank-transcript environment on the well-formed voice
event sends exactly the notice and acknowledges with 200. -/
theorem C4_blank_transcript_witness :
    POST envBlankTranscript (Except.ok evVoice) =
      ([Call.getFile "abc123", Call.download "voice/abc.oga",
        Call.transcribe [10, 20, 30, 40, 50, 60, 70, 80, 90],
        Call.sendMessage 5 noticeText true], okResponse) :=
  C4_blank_transcript envBlankTranscript ⟨some ⟨5⟩, some ⟨some "abc123"⟩⟩
    ⟨5⟩ ⟨some "abc123"⟩ "voice/abc.oga" "OK" none
    [10, 20, 30, 40, 50, 60, 70, 80, 90] "   " rfl rfl rfl rfl rfl rfl rfl

set_option maxRecDepth 8192 in
/-- C6: generateSpeech drains the synthesis stream completely and resolves
with the concatenation of all chunks in arrival order; and in the
round-trip scenario (metadata ok, 9-byte download, transcription "hello",
a fixed generated reply, chunks [1,2] then [3]) the voice endpoint
receives exactly the payload [1,2,3], no text notice is attempted, and
the response is the 200 acknowledgement. -/
theorem C6_stream_concat :
    (∀ (env : Env) (text : String), env.ttsSetupError = none →
      (env.tts text).streamError = none →
      (generateSpeech env text).2 = Except.ok (env.tts text).chunks.flatten)
    ∧ POST env0 (Except.ok evVoice) =
        ([Call.getFile "abc123", Call.download "voice/abc.oga",
          Call.transcribe [10, 20, 30, 40, 50, 60, 70, 80, 90],
          Call.generate TUTOR_SYSTEM_PROMPT "hello",
          Call.synthesize "Hi! How can I help you practice English?",
          Call.sendVoice 5 [1, 2, 3] true], okResponse)
    ∧ textAttempts (POST env0 (Except.ok evVoice)).1 = 0 := by
  refine ⟨?_, by decide, by decide⟩
  intro env text h1 h2
  simp [generateSpeech, h1, h2]

/-- C6 witness: the general drain statement applied to the concrete
environment yields the concatenated [1,2,3] payload. -/
theorem C6_stream_concat_witness :
    (generateSpeech env0 "hi").2 = Except.ok [1, 2, 3] := by
  rw [C6_stream_concat.1 env0 "hi" rfl rfl]
  rfl

set_option maxRecDepth 8192 in
/-- C7: evaluation of the code at the claim's failing input. A synthesis
stream raising mid-stream does make generateSpeech reject with that
error, the accumulated bytes are discarded (the trace holds no sendVoice
call) and the response is the 500 payload - but, against the claim, no
apology notice is ever sent: the catch's notification dies at
request.clone() on the already-consumed body, so the trace contains no
sendMessage call at all. -/
theorem C7_midstream_failure :
    (generateSpeech envTtsFail "Hi! How can I help you practice English?").2
        = Except.error "stream reset" ∧
    POST envTtsFail (Except.ok evVoice) =
      ([Call.getFile "abc123", Call.download "voice/abc.oga",
        Call.transcribe [10, 20, 30, 40, 50, 60, 70, 80, 90],
        Call.generate TUTOR_SYSTEM_PROMPT "hello",
        Call.synthesize "Hi! How can I help you practice English?"],
        errResponse) ∧
    textAttempts (POST envTtsFail (Except.ok evVoice)).1 = 0 :=
  ⟨rfl, by decide, by decide⟩

set_option maxRecDepth 8192 in
/-- C8: evaluation of the code at the claim's failing input. The failing
metadata response does make getTelegramFilePath fail with a message
embedding the provided description, and the response is the 500 payload -
but, against the claim, the generic apology is never sent to chat.id: the
catch dies at request.clone() on the already-consumed body, so no
sendMessage fetch ever occurs and the trace holds only the metadata
call. -/
theorem C8_metadata_failure :
    (getTelegramFilePath envMetaFail "abc123").2
        = Except.error ("Failed to get file path: " ++ "file not found") ∧
    POST envMetaFail (Except.ok evVoice) =
      ([Call.getFile "abc123"], errResponse) ∧
    textAttempts (POST envMetaFail (Except.ok evVoice)).1 = 0 :=
  ⟨rfl, by decide, by decide⟩

/-- Send-call accounting for the try body: at most one sendVoice attempt;
at most one delivered text; a thrown error means no text was delivered
inside the try; and a delivered voice reply happens only on the fully
successful path, where no text send is ever attempted. -/
lemma tryBody_sendFacts (env : Env) (body : InboundEvent) :
    voiceAttempts (tryBody env body).1 ≤ 1 ∧
    textDeliveries (tryBody env body).1 ≤ 1 ∧
    ((tryBody env body).2.isSome = true → textDeliveries (tryBody env body).1 = 0) ∧
    (0 < voiceDeliveries (tryBody env body).1 →
      textAttempts (tryBody env body).1 = 0 ∧ (tryBody env body).2 = none) := by
  obtain ⟨msg⟩ := body
  cases msg with
  | none =>
    simp [tryBody, voiceAttempts, voiceDeliveries, textAttempts, textDeliveries]
  | some m =>
  cases hv : m.voice with
  | none =>
    simp [tryBody, hv, voiceAttempts, voiceDeliveries, textAttempts, textDeliveries]
  | some v =>
  cases hc : m.chat with
  | none =>
    simp [tryBody, hv, hc, voiceAttempts, voiceDeliveries, textAttempts, textDeliveries]
  | some c =>
  rcases hfr : env.getFile (jsStr v.file_id) with ⟨fok, res, desc⟩
  cases fok with
  | false =>
    have ht : tryBody env (⟨some m⟩ : InboundEvent) =
        ([Call.getFile (jsStr v.file_id)],
          some ("Failed to get file path: " ++ jsStr desc)) := by
      simp [tryBody, hv, hc, getTelegramFilePath, hfr]
    rw [ht]
    simp [voiceAttempts, voiceDeliveries, textAttempts, textDeliveries,
      Call.isVoiceAttempt, Call.isVoiceDelivery, Call.isTextAttempt,
      Call.isTextDelivery, List.countP_cons]
  | true =>
  cases res with
  | none =>
    have ht : tryBody env (⟨some m⟩ : InboundEvent) =
        ([Call.getFile (jsStr v.file_id)],
          some "TypeError: Cannot read properties of undefined (reading fileable path)") := by
      simp [tryBody, hv, hc, getTelegramFilePath, hfr]
    rw [ht]
    simp [voiceAttempts, voiceDeliveries, textAttempts, textDeliveries,
      Call.isVoiceAttempt, Call.isVoiceDelivery, Call.isTextAttempt,
      Call.isTextDelivery, List.countP_cons]
  | some r =>
  rcases hdl : env.download (jsStr r.file_path) with ⟨dok, dst, db⟩
  cases dok with
  | false =>
    have ht : tryBody env (⟨some m⟩ : InboundEvent) =
        ([Call.getFile (jsStr v.file_id), Call.download (jsStr r.file_path)],
          some ("Failed to download file: " ++ dst)) := by
      simp [tryBody, hv, hc, getTelegramFilePath, hfr, downloadTelegramFile, hdl]
    rw [ht]
    simp [voiceAttempts, voiceDeliveries, textAttempts, textDeliveries,
      Call.isVoiceAttempt, Call.isVoiceDelivery, Call.isTextAttempt,
      Call.isTextDelivery, List.countP_cons]
  | true =>
  rcases htr2 : env.transcribe db with e | s
  case error =>
    have ht : tryBody env (⟨some m⟩ : InboundEvent) =
        ([Call.getFile (jsStr v.file_id), Call.download (jsStr r.file_path),
          Call.transcribe db], some e) := by
      simp [tryBody, hv, hc, getTelegramFilePath, hfr, downloadTelegramFile, hdl,
        transcribeAudio, htr2]
    rw [ht]
    simp [voiceAttempts, voiceDeliveries, textAttempts, textDeliveries,
      Call.isVoiceAttempt, Call.isVoiceDelivery, Call.isTextAttempt,
      Call.isTextDelivery, List.countP_cons]
  case ok =>
  by_cases hbl : jsTrim s = ""
  · cases hsm : env.sendMessage c.id noticeText with
    | false =>
      have ht : tryBody env (⟨some m⟩ : InboundEvent) =
          ([Call.getFile (jsStr v.file_id), Call.download (jsStr r.file_path),
            Call.transcribe db, Call.sendMessage c.id noticeText false],
            some "TypeError: fetch failed") := by
        simp [tryBody, hv, hc, getTelegramFilePath, hfr, downloadTelegramFile, hdl,
          transcribeAudio, htr2, hbl, sendMessageToTelegram, hsm]
      rw [ht]
      simp [voiceAttempts, voiceDeliveries, textAttempts, textDeliveries,
        Call.isVoiceAttempt, Call.isVoiceDelivery, Call.isTextAttempt,
        Call.isTextDelivery, List.countP_cons]
    | true =>
      have ht : tryBody env (⟨some m⟩ : InboundEvent) =
          ([Call.getFile (jsStr v.file_id), Call.download (jsStr r.file_path),
            Call.transcribe db, Call.sendMessage c.id noticeText true], none) := by
        simp [tryBody, hv, hc, getTelegramFilePath, hfr, downloadTelegramFile, hdl,
          transcribeAudio, htr2, hbl, sendMessageToTelegram, hsm]
      rw [ht]
      simp [voiceAttempts, voiceDeliveries, textAttempts, textDeliveries,
        Call.isVoiceAttempt, Call.isVoiceDelivery, Call.isTextAttempt,
        Call.isTextDelivery, List.countP_cons]
  · rcases hcc : env.chatCompletion TUTOR_SYSTEM_PROMPT s with e | choices
    · have ht : tryBody env (⟨some m⟩ : InboundEvent) =
          ([Call.getFile (jsStr v.file_id), Call.download (jsStr r.file_path),
            Call.transcribe db, Call.generate TUTOR_SYSTEM_PROMPT s], some e) := by
        simp [tryBody, hv, hc, getTelegramFilePath, hfr, downloadTelegramFile, hdl,
          transcribeAudio, htr2, hbl, getTutorResponse, hcc]
      rw [ht]
      simp [voiceAttempts, voiceDeliveries, textAttempts, textDeliveries,
        Call.isVoiceAttempt, Call.isVoiceDelivery, Call.isTextAttempt,
        Call.isTextDelivery, List.countP_cons]
    · cases hts : env.ttsSetupError with
      | some e =>
        have ht : tryBody env (⟨some m⟩ : InboundEvent) =
            ([Call.getFile (jsStr v.file_id), Call.download (jsStr r.file_path),
              Call.transcribe db, Call.generate TUTOR_SYSTEM_PROMPT s], some e) := by
          simp [tryBody, hv, hc, getTelegramFilePath, hfr, downloadTelegramFile, hdl,
            transcribeAudio, htr2, hbl, getTutorResponse, hcc, generateSpeech, hts]
        rw [ht]
        simp [voiceAttempts, voiceDeliveries, textAttempts, textDeliveries,
          Call.isVoiceAttempt, Call.isVoiceDelivery, Call.isTextAttempt,
          Call.isTextDelivery, List.countP_cons]
      | none =>
      cases hse : (env.tts (jsOrElse ((choices.head?.bind Choice.message).bind
          ChoiceMessage.content) tutorFallback)).streamError with
      | some e =>
        have ht : tryBody env (⟨some m⟩ : InboundEvent) =
            ([Call.getFile (jsStr v.file_id), Call.download (jsStr r.file_path),
              Call.transcribe db, Call.generate TUTOR_SYSTEM_PROMPT s,
              Call.synthesize (jsOrElse ((choices.head?.bind Choice.message).bind
                ChoiceMessage.content) tutorFallback)], some e) := by
          simp [tryBody, hv, hc, getTelegramFilePath, hfr, downloadTelegramFile, hdl,
            transcribeAudio, htr2, hbl, getTutorResponse, hcc, generateSpeech, hts, hse]
        rw [ht]
        simp [voiceAttempts, voiceDeliveries, textAttempts, textDeliveries,
          Call.isVoiceAttempt, Call.isVoiceDelivery, Call.isTextAttempt,
          Call.isTextDelivery, List.countP_cons]
      | none =>
      rcases hsv : env.sendVoice c.id ((env.tts (jsOrElse ((choices.head?.bind
          Choice.message).bind ChoiceMessage.content) tutorFallback)).chunks.flatten)
          with ⟨svok, svb⟩
      cases svok with
      | false =>
        have ht : tryBody env (⟨some m⟩ : InboundEvent) =
            ([Call.getFile (jsStr v.file_id), Call.download (jsStr r.file_path),
              Call.transcribe db, Call.generate TUTOR_SYSTEM_PROMPT s,
              Call.synthesize (jsOrElse ((choices.head?.bind Choice.message).bind
                ChoiceMessage.content) tutorFallback),
              Call.sendVoice c.id ((env.tts (jsOrElse ((choices.head?.bind
                Choice.message).bind ChoiceMessage.content)
                tutorFallback)).chunks.flatten) false],
              some ("Failed to send voice: " ++ svb)) := by
          simp [tryBody, hv, hc, getTelegramFilePath, hfr, downloadTelegramFile, hdl,
            transcribeAudio, htr2, hbl, getTutorResponse, hcc, generateSpeech, hts, hse,
            sendVoiceToTelegram, hsv]
        rw [ht]
        simp [voiceAttempts, voiceDeliveries, textAttempts, textDeliveries,
          Call.isVoiceAttempt, Call.isVoiceDelivery, Call.isTextAttempt,
          Call.isTextDelivery, List.countP_cons]
      | true =>
        have ht : tryBody env (⟨some m⟩ : InboundEvent) =
            ([Call.getFile (jsStr v.file_id), Call.download (jsStr r.file_path),
              Call.transcribe db, Call.generate TUTOR_SYSTEM_PROMPT s,
              Call.synthesize (jsOrElse ((choices.head?.bind Choice.message).bind
                ChoiceMessage.content) tutorFallback),
              Call.sendVoice c.id ((env.tts (jsOrElse ((choices.head?.bind
                Choice.message).bind ChoiceMessage.content)
                tutorFallback)).chunks.flatten) true], none) := by
          simp [tryBody, hv, hc, getTelegramFilePath, hfr, downloadTelegramFile, hdl,
            transcribeAudio, htr2, hbl, getTutorResponse, hcc, generateSpeech, hts, hse,
            sendVoiceToTelegram, hsv]
        rw [ht]
        simp [voiceAttempts, voiceDeliveries, textAttempts, textDeliveries,
          Call.isVoiceAttempt, Call.isVoiceDelivery, Call.isTextAttempt,
          Call.isTextDelivery, List.countP_cons]

/-- Voice attempts add over trace concatenation. -/
lemma voiceAttempts_append (a b : Trace) :
    voiceAttempts (a ++ b) = voiceAttempts a + voiceAttempts b :=
  List.countP_append _ _ _

/-- Voice deliveries add over trace concatenation. -/
lemma voiceDeliveries_append (a b : Trace) :
    voiceDeliveries (a ++ b) = voiceDeliveries a + voiceDeliveries b :=
  List.countP_append _ _ _

/-- Text attempts add over trace concatenation. -/
lemma textAttempts_append (a b : Trace) :
    textAttempts (a ++ b) = textAttempts a + textAttempts b :=
  List.countP_append _ _ _

/-- Text deliveries add over trace concatenation. -/
lemma textDeliveries_append (a b : Trace) :
    textDeliveries (a ++ b) = textDeliveries a + textDeliveries b :=
  List.countP_append _ _ _

/-- C3: one invocation of POST makes at most one sendVoice attempt and
delivers at most one notice/apology text per inbound event, and a
delivered voice reply excludes every text send (even an attempted one)
for the same event. -/
theorem C3_single_outbound (env : Env) (request : Except String InboundEvent) :
    voiceAttempts (POST env request).1 ≤ 1 ∧
    textDeliveries (POST env request).1 ≤ 1 ∧
    (0 < voiceDeliveries (POST env request).1 →
      textAttempts (POST env request).1 = 0) := by
  cases request with
  | error e =>
    simp [POST, catchNotify, voiceAttempts, voiceDeliveries, textAttempts,
      textDeliveries]
  | ok body =>
    have hT := tryBody_sendFacts env body
    rcases ht : tryBody env body with ⟨t, o⟩
    rw [ht] at hT
    dsimp only at hT
    cases o with
    | none =>
      have hp : POST env (Except.ok body) = (t, okResponse) := by simp [POST, ht]
      rw [hp]
      exact ⟨hT.1, hT.2.1, fun h => (hT.2.2.2 h).1⟩
    | some e =>
      have hp : POST env (Except.ok body) = (t, errResponse) := by
        simp [POST, ht, catchNotify]
      rw [hp]
      exact ⟨hT.1, hT.2.1, fun h => (hT.2.2.2 h).1⟩

/-- C3 witness: the fully successful run of the well-formed voice event
delivers its voice reply, and the invariant then forces zero text sends
for that event. -/
theorem C3_single_outbound_witness :
    textAttempts (POST env0 (Except.ok evVoice)).1 = 0 :=
  (C3_single_outbound env0 (Except.ok evVoice)).2.2 (by decide)

/-- C9: every POST invocation produces exactly one of the two responses -
200 with ok:true, or 500 with ok:false and the fixed error string - so no
fault escapes without a response; every case the try body completes,
skips included, gets the 200 acknowledgement; and a 500 is returned only
when even the error-notification fallback fails to construct, which the
code guarantees at every 500: the catch's request.clone() throws on the
already-consumed body before any notification can be built. -/
theorem C9_response_contract (env : Env) (request : Except String InboundEvent) :
    ((POST env request).2 = okResponse ∨ (POST env request).2 = errResponse) ∧
    (∀ body, request = Except.ok body → (tryBody env body).2 = none →
      (POST env request).2 = okResponse) ∧
    ((POST env request).2 = errResponse →
      ∃ e, catchNotify.2 = Except.error e) := by
  refine ⟨?_, ?_, ?_⟩
  · cases request with
    | error e => exact Or.inr rfl
    | ok body =>
      rcases ht : tryBody env body with ⟨t, o⟩
      cases o with
      | none => exact Or.inl (by simp [POST, ht])
      | some e => exact Or.inr (by simp [POST, ht])
  · intro body hb hnone
    subst hb
    rcases ht : tryBody env body with ⟨t, o⟩
    rw [ht] at hnone
    dsimp only at hnone
    subst hnone
    simp [POST, ht]
  · intro _
    exact ⟨"TypeError: Request body is already used", rfl⟩

/-- C9 witness: a skipped event gets the 200 acknowledgement, and at a
concrete 500 run (failing metadata) the notification fallback indeed
failed to construct. -/
theorem C9_response_contract_witness :
    (POST env0 (Except.ok evNoMessage)).2 = okResponse ∧
    (∃ e, catchNotify.2 = Except.error e) :=
  ⟨(C9_response_contract env0 (Except.ok evNoMessage)).2.1 evNoMessage rfl rfl,
   (C9_response_contract envMetaFail (Except.ok evVoice)).2.2 (by decide)⟩

end LinguaTutor
